import Mathlib

/-!
Shallow embedding of the autosys_log_retriever repository (four Python
scripts: autosys-logs.py, autosys-logs-python-auth.py, autosys-system-logs.py,
autosys-minimal-system-logs.py) together with theorems checking the
natural-language specification against it.

The scripts shell out to external commands, scrape the captured stdout with
Python `re` patterns, and re-emit the extracted fields.  External effects
(subprocess results, the filesystem, interactive prompts, the clock) are
modelled as explicit oracle parameters; printed output and command
invocations are modelled as an event trace.
-/

set_option maxRecDepth 100000

/-! ## Python character classes (ASCII fragment)

The scripts only ever scrape ASCII output of the external scheduler tools, so
the ASCII fragment of the Python (Unicode) classes is the faithful model for
every input that occurs. -/

/-- Python regex class backslash-s restricted to ASCII: space, tab, newline,
carriage return, vertical tab, form feed. -/
def isPySpace (c : Char) : Bool :=
  c == ' ' || c == '\t' || c == '\n' || c == '\r' || c == '\x0b' || c == '\x0c'

/-- Python regex class backslash-d restricted to ASCII. -/
def isPyDigit (c : Char) : Bool := decide ('0' ≤ c) && decide (c ≤ '9')

/-- Python regex class backslash-w restricted to ASCII. -/
def isPyWord (c : Char) : Bool :=
  (decide ('a' ≤ c) && decide (c ≤ 'z')) || (decide ('A' ≤ c) && decide (c ≤ 'Z'))
    || isPyDigit c || c == '_'

/-- character class [0-9/] used by the Last Run patterns -/
def isDateChar (c : Char) : Bool := isPyDigit c || c == '/'

/-- character class [0-9:] used by the Last Run patterns -/
def isTimeChar (c : Char) : Bool := isPyDigit c || c == ':'

/-! ## Python helpers -/

/-- Python truthiness of an optional string: None and the empty string are
falsy. -/
def optStrTruthy : Option String → Bool
  | none => false
  | some s => !(s == "")

/-- Python truthiness of an optional int (argparse type=int): None and 0 are
falsy. -/
def intOptTruthy : Option Int → Bool
  | none => false
  | some n => !(n == 0)

/-- rendering of an optional int inside an f-string -/
def intOptStr : Option Int → String
  | none => "None"
  | some n => toString n

/-- rendering of an optional string inside an f-string: Python prints None for
a missing value -/
def optShow : Option String → String
  | none => "None"
  | some s => s

/-- str.strip() on a list of characters: drop leading and trailing
whitespace. -/
def pyStrip (l : List Char) : List Char :=
  ((l.dropWhile isPySpace).reverse.dropWhile isPySpace).reverse

/-- str.strip() on a String. -/
def pyStripStr (s : String) : String := (pyStrip s.data).asString

/-- os.path.join for two components on a POSIX system: an absolute second
component wins; an empty first component or one ending in a slash is
concatenated directly; otherwise a slash is inserted. -/
def osPathJoin (a b : String) : String :=
  if b.data.head? = some '/' then b
  else if a.data = [] ∨ a.data.getLast? = some '/' then a ++ b
  else a ++ "/" ++ b

/-- rendering of a command argument list, as in str(CalledProcessError).
Python wraps each element in repr quotes, which we omit; the exact message
text is not load-bearing for any claim. -/
def pyListRepr (cmd : List String) : String :=
  "[" ++ String.intercalate ", " cmd ++ "]"

/-- str(subprocess.CalledProcessError(code, cmd)) for a list command. -/
def calledProcessErrorStr (cmd : List String) (code : Nat) : String :=
  "Command " ++ pyListRepr cmd ++ " returned non-zero exit status "
    ++ toString code ++ "."

/-! ## Regular expressions

A small backtracking matcher with Python `re` semantics for the constructs
the scripts use: literals, single-character classes, the dot (which does not
match a newline), concatenation, left-biased alternation, greedy and lazy
star, the dollar anchor (end of input or just before a final newline, no
MULTILINE flag), and one capturing group per pattern (group 2 of the metadata
pattern is never read by the code and is modelled without capture). -/

inductive RE where
  | eps : RE
  | ch : Char → RE
  | cls : (Char → Bool) → RE
  | dot : RE
  | seq : RE → RE → RE
  | alt : RE → RE → RE
  | starG : RE → RE
  | starL : RE → RE
  | eol : RE
  | grp : RE → RE

/-- matcher state: the remaining input (a suffix of the searched text) and
the value captured by group 1 so far. -/
structure MSt where
  rest : List Char
  cap : Option (List Char)
deriving DecidableEq

/-- left-biased choice on match outcomes (first success wins, as in a
backtracking engine). -/
def mOr (a : Option MSt) (b : Unit → Option MSt) : Option MSt :=
  match a with
  | some x => some x
  | none => b ()

/-- fuel-indexed CPS backtracking matcher.  Exploration order matches the
Python engine: concatenation explores the alternatives of its left component
outermost, alternation prefers its left branch, a greedy star tries the
longer match first, a lazy star the shorter.  Star bodies that make no
progress are cut off (all star bodies in the modelled patterns consume at
least one character, so this never changes the result). -/
def matRE : Nat → RE → MSt → (MSt → Option MSt) → Option MSt
  | 0, _, _, _ => none
  | n + 1, re, st, k =>
    match re with
    | .eps => k st
    | .ch c =>
      match st.rest with
      | [] => none
      | d :: r => if d = c then k ⟨r, st.cap⟩ else none
    | .cls p =>
      match st.rest with
      | [] => none
      | d :: r => if p d then k ⟨r, st.cap⟩ else none
    | .dot =>
      match st.rest with
      | [] => none
      | d :: r => if d = '\n' then none else k ⟨r, st.cap⟩
    | .seq a b => matRE n a st (fun st2 => matRE n b st2 k)
    | .alt a b => mOr (matRE n a st k) (fun _ => matRE n b st k)
    | .starG a =>
      mOr (matRE n a st (fun st2 =>
            if st2.rest.length < st.rest.length then matRE n (.starG a) st2 k else none))
          (fun _ => k st)
    | .starL a =>
      mOr (k st)
          (fun _ => matRE n a st (fun st2 =>
            if st2.rest.length < st.rest.length then matRE n (.starL a) st2 k else none))
    | .eol => if st.rest = [] ∨ st.rest = ['\n'] then k st else none
    | .grp a =>
      matRE n a st (fun st2 =>
        k ⟨st2.rest, some (st.rest.take (st.rest.length - st2.rest.length))⟩)

/-- structural size of a pattern, used to compute a sufficient fuel bound. -/
def reSize : RE → Nat
  | .eps => 1
  | .ch _ => 1
  | .cls _ => 1
  | .dot => 1
  | .eol => 1
  | .seq a b => reSize a + reSize b + 1
  | .alt a b => reSize a + reSize b + 1
  | .starG a => reSize a + 1
  | .starL a => reSize a + 1
  | .grp a => reSize a + 1

/-- generous fuel bound: matching never recurses deeper than pattern size
times input length for the patterns at hand. -/
def reFuel (re : RE) (s : List Char) : Nat := (reSize re + 2) * (s.length + 2) + 2

/-- re.search: try a match at each start position from the left; the first
position with a match wins. -/
def searchFrom (re : RE) (fuel : Nat) : List Char → Option MSt
  | [] =>
    match matRE fuel re ⟨[], none⟩ some with
    | some st => some st
    | none => none
  | c :: r =>
    match matRE fuel re ⟨c :: r, none⟩ some with
    | some st => some st
    | none => searchFrom re fuel r

/-- re.search over a text. -/
def pySearch (re : RE) (s : List Char) : Option MSt :=
  searchFrom re (reFuel re s) s

/-- match.group(1) of a successful re.search, None when the search fails.
Group 1 participates in every successful match of the patterns at hand. -/
def searchGroup1 (re : RE) (s : List Char) : Option (List Char) :=
  match pySearch re s with
  | some st => st.cap
  | none => none

/-- literal string pattern -/
def reStr (s : String) : RE :=
  s.data.foldr (fun c acc => RE.seq (RE.ch c) acc) RE.eps

/-- greedy plus: one copy then a greedy star -/
def rePlus (a : RE) : RE := RE.seq a (RE.starG a)

/-! ## The patterns of the scripts -/

/-- autosys-logs.py line 47: re.search of Status/Event: then a space then a
captured word. -/
def STATUS_PATTERN : RE :=
  RE.seq (reStr "Status/Event: ") (RE.grp (rePlus (RE.cls isPyWord)))

/-- autosys-logs.py line 52: Last Run: then a space then a captured group of
date characters, whitespace, time characters. -/
def LAST_RUN_PATTERN : RE :=
  RE.seq (reStr "Last Run: ")
    (RE.grp (RE.seq (rePlus (RE.cls isDateChar))
      (RE.seq (rePlus (RE.cls isPySpace)) (rePlus (RE.cls isTimeChar)))))

/-- shared tail of the three file-path patterns: optional whitespace, a lazily
captured run of dots, terminated by whitespace or the dollar anchor.  The
pattern text is repeated verbatim in the sources for each label. -/
def lazyValueTail : RE :=
  RE.seq (RE.starG (RE.cls isPySpace))
    (RE.seq (RE.grp (RE.starL RE.dot))
      (RE.alt (rePlus (RE.cls isPySpace)) RE.eol))

/-- autosys-logs.py line 57 and autosys-logs-python-auth.py line 51 -/
def STD_OUT_FILE_PATTERN : RE := RE.seq (reStr "std_out_file:") lazyValueTail

/-- autosys-logs.py line 61 and autosys-logs-python-auth.py line 52 -/
def STD_ERR_FILE_PATTERN : RE := RE.seq (reStr "std_err_file:") lazyValueTail

/-- autosys-logs.py line 67 and autosys-logs-python-auth.py line 53 -/
def JOB_DIR_PATTERN : RE := RE.seq (reStr "job_dir:") lazyValueTail

/-- autosys-system-logs.py line 79: the attribute label, optional whitespace,
a lazily captured run of dots, then a single whitespace character or the
dollar anchor (group 2 in the source, never read, modelled without
capture). -/
def metaPattern (attr : String) : RE :=
  RE.seq (reStr (attr ++ ":"))
    (RE.seq (RE.starG (RE.cls isPySpace))
      (RE.seq (RE.grp (RE.starL RE.dot))
        (RE.alt (RE.cls isPySpace) RE.eol)))

/-- autosys-logs-python-auth.py line 49: Status/Event: then whitespace then a
captured word. -/
def AUTH_STATUS_PATTERN : RE :=
  RE.seq (reStr "Status/Event:")
    (RE.seq (rePlus (RE.cls isPySpace)) (RE.grp (rePlus (RE.cls isPyWord))))

/-- autosys-logs-python-auth.py line 50 -/
def AUTH_LAST_RUN_PATTERN : RE :=
  RE.seq (reStr "Last Run:")
    (RE.seq (rePlus (RE.cls isPySpace))
      (RE.grp (RE.seq (rePlus (RE.cls isDateChar))
        (RE.seq (rePlus (RE.cls isPySpace)) (rePlus (RE.cls isTimeChar))))))

example : searchGroup1 STATUS_PATTERN ("x Status/Event: SUCCESS y").data
    = some ("SUCCESS").data := by decide

example : searchGroup1 STD_OUT_FILE_PATTERN ("std_out_file: /a/b.out next").data
    = some ("/a/b.out").data := by decide

example : searchGroup1 JOB_DIR_PATTERN ("job_dir:").data = some [] := by decide

example : searchGroup1 JOB_DIR_PATTERN ("job_dir: /x").data = some ("/x").data := by
  decide

example : searchGroup1 STATUS_PATTERN ("nothing here").data = none := by decide

example : searchGroup1 LAST_RUN_PATTERN ("Last Run: 1/1\n2:2").data
    = some ("1/1\n2:2").data := by decide

example : searchGroup1 (metaPattern "machine") ("machine: host1").data
    = some ("host1").data := by decide

/-! ## Oracles for external effects -/

/-- result of one external process: exit code plus the captured text
streams. -/
structure CmdResult where
  exitCode : Nat
  stdout : String
  stderr : String

/-- oracle giving the result of each argument-list command
(subprocess.run with a list). -/
def World : Type := List String → CmdResult

/-- oracle giving the result of each shell-string command
(subprocess.run with shell=True). -/
def ShWorld : Type := String → CmdResult

/-- observable events of a script run: a line printed to stdout, a line
printed to stderr, or an invocation of an external command whose output is
not captured. -/
inductive Ev where
  | print : String → Ev
  | printErr : String → Ev
  | exec : List String → Ev
deriving DecidableEq

/-- filesystem oracle: existence test and file read (which may fail even when
the existence test succeeded). -/
structure FS where
  pathExists : String → Bool
  readFile : String → Except String String

/-- command invocations recorded in a trace -/
def execEvents (tr : List Ev) : List (List String) :=
  tr.filterMap (fun e => match e with | Ev.exec c => some c | _ => none)

/-! ## autosys-logs.py -/

namespace AutosysLogs

/-- the per-run job record built by get_job_details (autosys-logs.py lines
38-44). -/
structure JobDetails where
  job_name : String
  status : Option String
  last_run : Option String
  std_out_file : Option String
  std_err_file : Option String
deriving DecidableEq

/-- lines 47-49: the status field is the captured word when the pattern
matches. -/
def statusField (output : List Char) : Option String :=
  (searchGroup1 STATUS_PATTERN output).map List.asString

/-- lines 52-54 -/
def lastRunField (output : List Char) : Option String :=
  (searchGroup1 LAST_RUN_PATTERN output).map List.asString

/-- lines 57-59: the field is set only when the match succeeded AND the
captured group is truthy (non-empty). -/
def stdOutFileField (output : List Char) : Option String :=
  match searchGroup1 STD_OUT_FILE_PATTERN output with
  | some v => if v ≠ [] then some v.asString else none
  | none => none

/-- lines 61-63 -/
def stdErrFileField (output : List Char) : Option String :=
  match searchGroup1 STD_ERR_FILE_PATTERN output with
  | some v => if v ≠ [] then some v.asString else none
  | none => none

/-- lines 67-69: the job_dir branch tests only that the pattern matched, not
that the capture is non-empty. -/
def jobDirField (output : List Char) : Option String :=
  (searchGroup1 JOB_DIR_PATTERN output).map List.asString

/-- get_job_details lines 38-75: the pure extraction applied to the captured
autorep stdout.  The two file fields can only hold None or a non-empty
string, so Python falsiness of each coincides with being None. -/
def parseJobDetails (job_name : String) (output : String) : JobDetails :=
  let o := output.data
  let std_out_file := stdOutFileField o
  let std_err_file := stdErrFileField o
  let derived :=
    if std_out_file.isNone || std_err_file.isNone then
      match jobDirField o with
      | some log_dir =>
        ((if std_out_file.isNone then some (osPathJoin log_dir (job_name ++ ".out"))
          else std_out_file),
         (if std_err_file.isNone then some (osPathJoin log_dir (job_name ++ ".err"))
          else std_err_file))
      | none => (std_out_file, std_err_file)
    else (std_out_file, std_err_file)
  { job_name := job_name, status := statusField o, last_run := lastRunField o,
    std_out_file := derived.1, std_err_file := derived.2 }

/-- the primary job-detail command of line 33 -/
def autorepCmd (job_name : String) : List String := ["autorep", "-j", job_name, "-L"]

/-- get_job_details lines 32-83: on a non-zero exit of autorep the
CalledProcessError is caught, two error lines are printed and the script
exits with code 1. -/
def get_job_details (w : World) (job_name : String) :
    Except (List Ev × Nat) JobDetails :=
  let cmd := autorepCmd job_name
  let result := w cmd
  if result.exitCode ≠ 0 then
    .error ([Ev.print ("Error retrieving job details: "
               ++ calledProcessErrorStr cmd result.exitCode),
             Ev.print ("stderr: " ++ result.stderr)], 1)
  else
    .ok (parseJobDetails job_name result.stdout)

/-- the fallback log-fetch command of lines 118 and 139 -/
def autosyslogCmd (job_name : String) (is_stdout : Bool) : List String :=
  ["autosyslog", "-j", job_name, if is_stdout then "-o" else "-e"]

/-- line 108: 80 dashes -/
def dashes : String := String.mk (List.replicate 80 '-')

/-- lines 98 and 102: 80 equals signs -/
def eqBar : String := String.mk (List.replicate 80 '=')

/-- get_job_logs lines 98-102: the report header block. -/
def jobHeader (jd : JobDetails) : List Ev :=
  [Ev.print ("\n" ++ eqBar),
   Ev.print ("Job Name: " ++ jd.job_name),
   Ev.print ("Status: " ++ optShow jd.status),
   Ev.print ("Last Run: " ++ optShow jd.last_run),
   Ev.print (eqBar ++ "\n")]

/-- get_job_logs lines 105-123, the stdout section: when a (truthy) path was
resolved, read it directly if it exists, otherwise invoke the fallback
command (whose failure raises and is caught by the enclosing handler); when
no path was resolved, report the stream as not available. -/
def stdoutBlock (w : World) (fs : FS) (jd : JobDetails) : List Ev :=
  match jd.std_out_file with
  | some stdout_path =>
    if stdout_path = "" then [Ev.print "\nSTDOUT LOG: Not available"]
    else
      [Ev.print ("\nSTDOUT LOG (" ++ stdout_path ++ "):"), Ev.print dashes] ++
      (if fs.pathExists stdout_path then
        match fs.readFile stdout_path with
        | .ok content => [Ev.print content]
        | .error e => [Ev.print ("Error accessing stdout log: " ++ e)]
      else
        [Ev.print "Direct access to stdout file failed. Attempting to retrieve via Autosys utilities...",
         Ev.exec (autosyslogCmd jd.job_name true)] ++
        (if (w (autosyslogCmd jd.job_name true)).exitCode ≠ 0 then
          [Ev.print ("Error accessing stdout log: "
            ++ calledProcessErrorStr (autosyslogCmd jd.job_name true)
                 (w (autosyslogCmd jd.job_name true)).exitCode)]
        else []))
  | none => [Ev.print "\nSTDOUT LOG: Not available"]

/-- get_job_logs lines 126-144, the stderr section (the source duplicates the
stdout block with the other stream). -/
def stderrBlock (w : World) (fs : FS) (jd : JobDetails) : List Ev :=
  match jd.std_err_file with
  | some stderr_path =>
    if stderr_path = "" then [Ev.print "\nSTDERR LOG: Not available"]
    else
      [Ev.print ("\nSTDERR LOG (" ++ stderr_path ++ "):"), Ev.print dashes] ++
      (if fs.pathExists stderr_path then
        match fs.readFile stderr_path with
        | .ok content => [Ev.print content]
        | .error e => [Ev.print ("Error accessing stderr log: " ++ e)]
      else
        [Ev.print "Direct access to stderr file failed. Attempting to retrieve via Autosys utilities...",
         Ev.exec (autosyslogCmd jd.job_name false)] ++
        (if (w (autosyslogCmd jd.job_name false)).exitCode ≠ 0 then
          [Ev.print ("Error accessing stderr log: "
            ++ calledProcessErrorStr (autosyslogCmd jd.job_name false)
                 (w (autosyslogCmd jd.job_name false)).exitCode)]
        else []))
  | none => [Ev.print "\nSTDERR LOG: Not available"]

/-- get_job_logs lines 86-148 (the temporary directory it creates and removes
is never otherwise used and is not modelled). -/
def getJobLogsTrace (w : World) (fs : FS) (jd : JobDetails) : List Ev :=
  jobHeader jd ++ stdoutBlock w fs jd ++ stderrBlock w fs jd

/-- main lines 151-165; argv includes the program name.  Argument handling is
only the argc check, then the banner is printed and details and logs are
fetched. -/
def main (w : World) (fs : FS) (argv : List String) : List Ev × Nat :=
  if argv.length ≠ 2 then
    ([Ev.print ("Usage: " ++ argv.headD "" ++ " <job_name>")], 1)
  else
    let job_name := argv.getD 1 ""
    let banner := Ev.print ("Retrieving logs for Autosys job: " ++ job_name)
    match get_job_details w job_name with
    | .error (evs, code) => (banner :: evs, code)
    | .ok jd => (banner :: getJobLogsTrace w fs jd, 0)

end AutosysLogs

example :
    (AutosysLogs.parseJobDetails "JOB" "job_dir: /a/b").std_out_file
      = some "/a/b/JOB.out" := by decide

example :
    (AutosysLogs.parseJobDetails "JOB" "job_dir:").std_out_file
      = some "JOB.out" := by decide

example :
    (AutosysLogs.parseJobDetails "J" "std_out_file: /x.out std_err_file: /x.err").std_err_file
      = some "/x.err" := by decide

/-! ## autosys-logs-python-auth.py -/

namespace AuthLogs

/-- the AutosysLogRetriever instance state (lines 43-46). -/
structure Retriever where
  username : Option String
  password : Option String
  instance_ : Option String
  server : Option String

/-- get_job_details lines 70-82: the autorep command with the credential
flags appended, each guarded by Python truthiness of the credential. -/
def autorepCmd (r : Retriever) (job_name : String) : List String :=
  let cmd := ["autorep", "-j", job_name, "-L"]
  let cmd := match r.username with
    | some u => if u ≠ "" then cmd ++ ["-u", u] else cmd
    | none => cmd
  let cmd := match r.password with
    | some p => if p ≠ "" then cmd ++ ["-p", p] else cmd
    | none => cmd
  let cmd := match r.instance_ with
    | some i => if i ≠ "" then cmd ++ ["-i", i] else cmd
    | none => cmd
  let cmd := match r.server with
    | some s => if s ≠ "" then cmd ++ ["-s", s] else cmd
    | none => cmd
  cmd

/-- retrieve_log_via_autosys lines 212-225: the autosyslog command with the
same credential-flag chain (the source duplicates the four ifs). -/
def autosyslogCmd (r : Retriever) (job_name : String) (is_stdout : Bool) : List String :=
  let cmd := ["autosyslog", "-j", job_name, if is_stdout then "-o" else "-e"]
  let cmd := match r.username with
    | some u => if u ≠ "" then cmd ++ ["-u", u] else cmd
    | none => cmd
  let cmd := match r.password with
    | some p => if p ≠ "" then cmd ++ ["-p", p] else cmd
    | none => cmd
  let cmd := match r.instance_ with
    | some i => if i ≠ "" then cmd ++ ["-i", i] else cmd
    | none => cmd
  let cmd := match r.server with
    | some s => if s ≠ "" then cmd ++ ["-s", s] else cmd
    | none => cmd
  cmd

/-- lines 104-106 (compiled STATUS_PATTERN of line 49) -/
def statusField (output : List Char) : Option String :=
  (searchGroup1 AUTH_STATUS_PATTERN output).map List.asString

/-- lines 109-111 -/
def lastRunField (output : List Char) : Option String :=
  (searchGroup1 AUTH_LAST_RUN_PATTERN output).map List.asString

/-- lines 114-116: truthiness check on the capture, then strip() on the
stored value. -/
def stdOutFileField (output : List Char) : Option String :=
  match searchGroup1 STD_OUT_FILE_PATTERN output with
  | some v => if v ≠ [] then some (pyStrip v).asString else none
  | none => none

/-- lines 118-120 -/
def stdErrFileField (output : List Char) : Option String :=
  match searchGroup1 STD_ERR_FILE_PATTERN output with
  | some v => if v ≠ [] then some (pyStrip v).asString else none
  | none => none

/-- lines 124-126: only match success is tested; the (possibly empty) capture
is stripped and used. -/
def jobDirField (output : List Char) : Option String :=
  (searchGroup1 JOB_DIR_PATTERN output).map (fun v => (pyStrip v).asString)

/-- get_job_details lines 94-132: the pure extraction applied to the captured
autorep stdout. -/
def parseJobDetails (job_name : String) (output : String) : AutosysLogs.JobDetails :=
  let o := output.data
  let std_out_file := stdOutFileField o
  let std_err_file := stdErrFileField o
  let derived :=
    if std_out_file.isNone || std_err_file.isNone then
      match jobDirField o with
      | some log_dir =>
        ((if std_out_file.isNone then some (osPathJoin log_dir (job_name ++ ".out"))
          else std_out_file),
         (if std_err_file.isNone then some (osPathJoin log_dir (job_name ++ ".err"))
          else std_err_file))
      | none => (std_out_file, std_err_file)
    else (std_out_file, std_err_file)
  { job_name := job_name, status := statusField o, last_run := lastRunField o,
    std_out_file := derived.1, std_err_file := derived.2 }

/-- get_job_details lines 84-140: on a non-zero autorep exit two error lines
are printed and the CalledProcessError is re-raised (its rendering is
returned as the error payload for the handler of the caller). -/
def get_job_details (w : World) (r : Retriever) (job_name : String) :
    Except (List Ev × String) AutosysLogs.JobDetails :=
  let cmd := autorepCmd r job_name
  let result := w cmd
  if result.exitCode ≠ 0 then
    .error ([Ev.print ("Error retrieving job details: "
               ++ calledProcessErrorStr cmd result.exitCode),
             Ev.print ("stderr: " ++ result.stderr)],
            calledProcessErrorStr cmd result.exitCode)
  else
    .ok (parseJobDetails job_name result.stdout)

/-- retrieve_log_via_autosys lines 204-233: run the fallback command with
captured output; print its stdout on success, two error lines on failure
(the exception is swallowed here). -/
def retrieve_log_via_autosys (w : World) (r : Retriever) (job_name : String)
    (is_stdout : Bool) : List Ev :=
  let cmd := autosyslogCmd r job_name is_stdout
  let result := w cmd
  Ev.exec cmd ::
  (if result.exitCode ≠ 0 then
    [Ev.print ("Error running autosyslog command. Exit code: "
       ++ toString result.exitCode),
     Ev.print ("Error message: " ++ result.stderr)]
  else [Ev.print result.stdout])

/-- get_job_logs lines 153-158 -/
def jobHeader (jd : AutosysLogs.JobDetails) : List Ev :=
  [Ev.print ("\n" ++ AutosysLogs.eqBar),
   Ev.print ("Job Name: " ++ jd.job_name),
   Ev.print ("Status: " ++ optShow jd.status),
   Ev.print ("Last Run: " ++ optShow jd.last_run),
   Ev.print (AutosysLogs.eqBar ++ "\n")]

/-- get_job_logs lines 161-178, the stdout section. -/
def stdoutBlock (w : World) (fs : FS) (r : Retriever)
    (jd : AutosysLogs.JobDetails) : List Ev :=
  match jd.std_out_file with
  | some stdout_path =>
    if stdout_path = "" then [Ev.print "\nSTDOUT LOG: Not available"]
    else
      [Ev.print ("\nSTDOUT LOG (" ++ stdout_path ++ "):"), Ev.print AutosysLogs.dashes] ++
      (if fs.pathExists stdout_path then
        match fs.readFile stdout_path with
        | .ok content => [Ev.print content]
        | .error e => [Ev.print ("Error accessing stdout log: " ++ e)]
      else
        Ev.print "Direct access to stdout file failed. Attempting to retrieve via Autosys utilities..."
          :: retrieve_log_via_autosys w r jd.job_name true)
  | none => [Ev.print "\nSTDOUT LOG: Not available"]

/-- get_job_logs lines 181-198, the stderr section. -/
def stderrBlock (w : World) (fs : FS) (r : Retriever)
    (jd : AutosysLogs.JobDetails) : List Ev :=
  match jd.std_err_file with
  | some stderr_path =>
    if stderr_path = "" then [Ev.print "\nSTDERR LOG: Not available"]
    else
      [Ev.print ("\nSTDERR LOG (" ++ stderr_path ++ "):"), Ev.print AutosysLogs.dashes] ++
      (if fs.pathExists stderr_path then
        match fs.readFile stderr_path with
        | .ok content => [Ev.print content]
        | .error e => [Ev.print ("Error accessing stderr log: " ++ e)]
      else
        Ev.print "Direct access to stderr file failed. Attempting to retrieve via Autosys utilities..."
          :: retrieve_log_via_autosys w r jd.job_name false)
  | none => [Ev.print "\nSTDERR LOG: Not available"]

/-- get_job_logs lines 142-202 (the unused temporary directory is not
modelled). -/
def getJobLogsTrace (w : World) (fs : FS) (r : Retriever)
    (jd : AutosysLogs.JobDetails) : List Ev :=
  jobHeader jd ++ stdoutBlock w fs r jd ++ stderrBlock w fs r jd

/-- interactive prompt events (lines 311 and 315): getpass does not echo the
typed input, input echoes it. -/
inductive PEv where
  | getpassPrompt : String → PEv
  | inputPrompt : String → PEv
deriving DecidableEq

/-- oracle for the interactive answers -/
structure Prompts where
  getpassResult : String
  inputResult : String

/-- main lines 306-315: if a (truthy) username is supplied without a
password, prompt once via getpass; if a username is supplied without an
instance name, prompt once via input. -/
def resolveCredentials (pr : Prompts) (username password instance_ : Option String) :
    List PEv × Option String × Option String × Option String :=
  let pwStep :=
    if optStrTruthy username && !optStrTruthy password then
      ([PEv.getpassPrompt ("Enter password for " ++ optShow username ++ ": ")],
       some pr.getpassResult)
    else ([], password)
  let instStep :=
    if optStrTruthy username && !optStrTruthy instance_ then
      ([PEv.inputPrompt "Enter Autosys instance name: "], some pr.inputResult)
    else ([], instance_)
  (pwStep.1 ++ instStep.1, username, pwStep.2, instStep.2)

/-- the argparse destination values as parsed from the command line (lines
246-283). -/
structure RawArgs where
  job_name : Option String
  username : Option String
  password : Option String
  instance_ : Option String
  server : Option String
  job_name_positional : Option String

/-- the arguments object after parse_arguments returns -/
structure Args where
  job_name : String
  username : Option String
  password : Option String
  instance_ : Option String
  server : Option String

/-- parse_arguments lines 283-293: fall back to the positional job name when
the flag value is falsy, then require a truthy job name (parser.error exits
the process otherwise). -/
def parse_arguments (a : RawArgs) : Except String Args :=
  let job_name :=
    if !optStrTruthy a.job_name && optStrTruthy a.job_name_positional then
      a.job_name_positional
    else a.job_name
  if !optStrTruthy job_name then
    .error "Job name is required. Use -j/--job or provide as positional argument."
  else
    .ok { job_name := optShow job_name, username := a.username,
          password := a.password, instance_ := a.instance_, server := a.server }

/-- main lines 317-324: the retriever built from the resolved credentials. -/
def mainRetriever (pr : Prompts) (args : Args) : Retriever :=
  let resolved := resolveCredentials pr args.username args.password args.instance_
  { username := resolved.2.1, password := resolved.2.2.1,
    instance_ := resolved.2.2.2, server := args.server }

/-- main lines 302-303: the banner block. -/
def mainBanner (args : Args) : List Ev :=
  [Ev.print ("\n" ++ String.mk (List.replicate 20 '=') ++ " Autosys Log Retriever "
     ++ String.mk (List.replicate 20 '=')),
   Ev.print ("Retrieving logs for job: " ++ args.job_name)]

/-- main lines 295-333 after argparse: a parse failure exits with the argparse
usage error (code 2); any exception from get_job_details is caught, one
error line is printed and 1 is returned; otherwise the logs are printed and
0 is returned.  Prompt events are on the interactive channel and are not part
of the stdout trace. -/
def main (w : World) (fs : FS) (pr : Prompts) (a : RawArgs) : List Ev × Nat :=
  match parse_arguments a with
  | .error _ => ([], 2)
  | .ok args =>
    let r := mainRetriever pr args
    match get_job_details w r args.job_name with
    | .error (evs, emsg) =>
      (mainBanner args ++ evs ++ [Ev.print ("Error: " ++ emsg)], 1)
    | .ok jd => (mainBanner args ++ getJobLogsTrace w fs r jd, 0)

end AuthLogs

example :
    AuthLogs.autorepCmd ⟨some "u", none, some "i", none⟩ "J"
      = ["autorep", "-j", "J", "-L", "-u", "u", "-i", "i"] := by decide

example :
    AuthLogs.autosyslogCmd ⟨some "u", none, some "i", none⟩ "J" false
      = ["autosyslog", "-j", "J", "-e", "-u", "u", "-i", "i"] := by decide

example :
    (AuthLogs.parseJobDetails "JOB" "Status/Event:   SU job_dir: /d").status
      = some "SU" := by decide

/-! ## autosys-system-logs.py -/

namespace SystemLogs

/-- run_command lines 18-33: on success return the stripped stdout; on a
non-zero exit print two error lines to stderr and return None. -/
def run_command (w : ShWorld) (command : String) : List Ev × Option String :=
  let result := w command
  if result.exitCode ≠ 0 then
    ([Ev.printErr ("Error running command: " ++ command),
      Ev.printErr ("Error message: " ++ pyStripStr result.stderr)], none)
  else ([], some (pyStripStr result.stdout))

/-- the four text blocks fetched by get_system_logs (lines 54-59). -/
structure LogsData where
  job_info : Option String
  system_logs : Option String
  run_details : Option String
  status_history : Option String
deriving DecidableEq

/-- line 39 -/
def jobInfoCmd (job_name : String) : String := "autorep -j " ++ job_name ++ " -q"

/-- lines 42-48: the run_number branch follows Python int truthiness (0 is
falsy). -/
def syslogCmd (job_name : String) (run_number : Option Int) : String :=
  if intOptTruthy run_number then
    "autosyslog -j " ++ job_name ++ " -r " ++ intOptStr run_number
  else "autosyslog -j " ++ job_name

/-- lines 45-49 -/
def runDetailsCmd (job_name : String) (run_number : Option Int) : String :=
  if intOptTruthy run_number then
    "autorep -j " ++ job_name ++ " -r " ++ intOptStr run_number
  else "autorep -j " ++ job_name ++ " -l"

/-- line 52 -/
def statusHistCmd (job_name : String) : String := "autorep -j " ++ job_name ++ " -s"

/-- get_system_logs lines 36-59 -/
def get_system_logs (w : ShWorld) (job_name : String) (run_number : Option Int) :
    List Ev × LogsData :=
  let jobInfo := run_command w (jobInfoCmd job_name)
  let systemLogs := run_command w (syslogCmd job_name run_number)
  let runDetails := run_command w (runDetailsCmd job_name run_number)
  let statusHistory := run_command w (statusHistCmd job_name)
  (jobInfo.1 ++ systemLogs.1 ++ runDetails.1 ++ statusHistory.1,
   { job_info := jobInfo.2, system_logs := systemLogs.2,
     run_details := runDetails.2, status_history := statusHistory.2 })

/-- the fixed attribute allow-list of lines 70-74. -/
def attributes : List String :=
  ["machine", "box_name", "command", "condition",
   "date_conditions", "days_of_week", "start_times",
   "job_type", "priority", "max_run_alarm", "alarm_if_fail"]

/-- extract_job_metadata lines 62-83: a falsy job_info yields an empty
mapping; otherwise each attribute whose pattern matches is stored with its
captured group (a Python dict in insertion order, modelled as an association
list). -/
def extract_job_metadata (job_info : Option String) : List (String × String) :=
  if !optStrTruthy job_info then []
  else
    attributes.foldl (fun metadata attr =>
      match searchGroup1 (metaPattern attr) (optShow job_info).data with
      | some v => metadata ++ [(attr, v.asString)]
      | none => metadata) []

/-- the output dictionary of lines 106-114. -/
structure Output where
  job_name : String
  run_number : Option Int
  timestamp : String
  metadata : List (String × String)
  system_logs : Option String
  run_details : Option String
  status_history : Option String
deriving DecidableEq

/-- JSON string rendering; models json.dumps(output, indent=2), whose exact
whitespace and escaping are not load-bearing for any claim. -/
def jsonQuote (s : String) : String := "\"" ++ s ++ "\""

/-- null for None, a quoted string otherwise -/
def jsonOpt : Option String → String
  | none => "null"
  | some s => jsonQuote s

/-- rendering of the metadata mapping -/
def jsonMeta (m : List (String × String)) : String :=
  "\x7b" ++ String.intercalate ", "
    (m.map (fun p => jsonQuote p.1 ++ ": " ++ jsonQuote p.2)) ++ "\x7d"

/-- rendering of the whole output dictionary (line 118) -/
def jsonDumpsOutput (o : Output) : String :=
  "\x7b" ++ String.intercalate ", "
    [jsonQuote "job_name" ++ ": " ++ jsonQuote o.job_name,
     jsonQuote "run_number" ++ ": "
       ++ (match o.run_number with | none => "null" | some n => toString n),
     jsonQuote "timestamp" ++ ": " ++ jsonQuote o.timestamp,
     jsonQuote "metadata" ++ ": " ++ jsonMeta o.metadata,
     jsonQuote "system_logs" ++ ": " ++ jsonOpt o.system_logs,
     jsonQuote "run_details" ++ ": " ++ jsonOpt o.run_details,
     jsonQuote "status_history" ++ ": " ++ jsonOpt o.status_history] ++ "\x7d"

/-- the text-format report of lines 120-132. -/
def textReport (o : Output) : List Ev :=
  [Ev.print ("=== AutoSys System Logs for Job: " ++ o.job_name ++ " ==="),
   Ev.print ("Run Number: "
     ++ (if intOptTruthy o.run_number then intOptStr o.run_number else "Latest")),
   Ev.print ("Timestamp: " ++ o.timestamp),
   Ev.print "\n=== Job Metadata ==="] ++
  (o.metadata.map (fun p => Ev.print (p.1 ++ ": " ++ p.2))) ++
  [Ev.print "\n=== Run Details ===", Ev.print (optShow o.run_details),
   Ev.print "\n=== Status History ===", Ev.print (optShow o.status_history),
   Ev.print "\n=== System Logs ===", Ev.print (optShow o.system_logs)]

/-- the two values of the format flag (line 91) -/
inductive OutFormat where
  | json : OutFormat
  | text : OutFormat
deriving DecidableEq

/-- the single report event of the chosen format: the JSON dump, or the first
line of the text report. -/
def reportEmitted (fmt : OutFormat) (o : Output) : Ev :=
  match fmt with
  | .json => Ev.print (jsonDumpsOutput o)
  | .text => Ev.print ("=== AutoSys System Logs for Job: " ++ o.job_name ++ " ===")

/-- main lines 86-132 after argparse (now is the datetime.now().isoformat()
value): fetch the four blocks, extract the metadata, build the output
dictionary and print it in the requested format; the function always runs to
completion and the process exits 0. -/
def main (w : ShWorld) (job_name : String) (run_number : Option Int)
    (output_format : OutFormat) (now : String) : List Ev × Output × Nat :=
  let fetched := get_system_logs w job_name run_number
  let metadata := extract_job_metadata fetched.2.job_info
  let output : Output :=
    { job_name := job_name, run_number := run_number, timestamp := now,
      metadata := metadata, system_logs := fetched.2.system_logs,
      run_details := fetched.2.run_details,
      status_history := fetched.2.status_history }
  match output_format with
  | .json => (fetched.1 ++ [Ev.print (jsonDumpsOutput output)], output, 0)
  | .text => (fetched.1 ++ textReport output, output, 0)

end SystemLogs

/-! ## autosys-minimal-system-logs.py -/

namespace MinimalLogs

/-- run_command lines 14-29: identical to the run_command of the other summarizer
except that the error lines go to stdout. -/
def run_command (w : ShWorld) (command : String) : List Ev × Option String :=
  let result := w command
  if result.exitCode ≠ 0 then
    ([Ev.print ("Error running command: " ++ command),
      Ev.print ("Error message: " ++ pyStripStr result.stderr)], none)
  else ([], some (pyStripStr result.stdout))

/-- the minimal results dictionary of lines 42-46. -/
structure Results where
  job_name : String
  run_number : Option Int
  system_logs : Option String
deriving DecidableEq

/-- lines 34-37 -/
def syslogCmd (job_name : String) (run_number : Option Int) : String :=
  if intOptTruthy run_number then
    "autosyslog -j " ++ job_name ++ " -r " ++ intOptStr run_number
  else "autosyslog -j " ++ job_name

/-- get_system_logs lines 32-48 -/
def get_system_logs (w : ShWorld) (job_name : String) (run_number : Option Int) :
    List Ev × Results :=
  let fetched := run_command w (syslogCmd job_name run_number)
  (fetched.1,
   { job_name := job_name, run_number := run_number, system_logs := fetched.2 })

/-- models json.dumps(log_data) / json.dumps(log_data, indent=2); the pretty
flag only changes whitespace, which is not modelled. -/
def jsonDumpsResults (r : Results) : String :=
  "\x7b" ++ String.intercalate ", "
    [SystemLogs.jsonQuote "job_name" ++ ": " ++ SystemLogs.jsonQuote r.job_name,
     SystemLogs.jsonQuote "run_number" ++ ": "
       ++ (match r.run_number with | none => "null" | some n => toString n),
     SystemLogs.jsonQuote "system_logs" ++ ": " ++ SystemLogs.jsonOpt r.system_logs]
    ++ "\x7d"

/-- main lines 51-70 after argparse: fetch, then print the JSON document; the
process always exits 0. -/
def main (w : ShWorld) (job_name : String) (run_number : Option Int)
    (_pretty : Bool) : List Ev × Results × Nat :=
  let fetched := get_system_logs w job_name run_number
  (fetched.1 ++ [Ev.print (jsonDumpsResults fetched.2)], fetched.2, 0)

end MinimalLogs

example :
    SystemLogs.extract_job_metadata (some "machine: m1 command: /bin/x")
      = [("machine", "m1"), ("command", "/bin/x")] := by decide

example :
    (SystemLogs.main (fun _ => ⟨1, "", "boom"⟩) "J" none SystemLogs.OutFormat.json "T").2.2
      = 0 := by decide

/-! ## Matcher metatheory

The lemmas below establish that a capture produced by a group whose body can
only consume non-newline characters never contains a newline, which settles
the line-boundary part of the pattern contract. -/

/-- a pattern every character consumed by which is distinct from the newline
character (group-free by construction). -/
def bodyNLFree : RE → Bool
  | .eps => true
  | .ch c => !(c == '\n')
  | .cls p => !(p '\n')
  | .dot => true
  | .seq a b => bodyNLFree a && bodyNLFree b
  | .alt a b => bodyNLFree a && bodyNLFree b
  | .starG a => bodyNLFree a
  | .starL a => bodyNLFree a
  | .eol => true
  | .grp _ => false

/-- a pattern all of whose groups have newline-free bodies. -/
def capNLFree : RE → Bool
  | .eps => true
  | .ch _ => true
  | .cls _ => true
  | .dot => true
  | .seq a b => capNLFree a && capNLFree b
  | .alt a b => capNLFree a && capNLFree b
  | .starG a => capNLFree a
  | .starL a => capNLFree a
  | .eol => true
  | .grp a => bodyNLFree a

/-- the stored capture, when present, contains no newline. -/
def nlcap : Option (List Char) → Prop
  | none => True
  | some l => '\n' ∉ l

/-- a successful match of a newline-free-body pattern hands its continuation
the original capture and a state whose consumed prefix is newline-free. -/
theorem matRE_consume_nlfree :
    ∀ (n : Nat) (re : RE) (st : MSt) (k : MSt → Option MSt) (o : MSt),
    bodyNLFree re = true → matRE n re st k = some o →
    ∃ pre rest, st.rest = pre ++ rest ∧ (∀ c ∈ pre, c ≠ '\n')
      ∧ k ⟨rest, st.cap⟩ = some o := by
  intro n
  induction n with
  | zero => intro re st k o _ h; simp [matRE] at h
  | succ n ih =>
    intro re st k o hb h
    obtain ⟨sr, sc⟩ := st
    cases re with
    | eps =>
      simp only [matRE] at h
      exact ⟨[], sr, rfl, by simp, h⟩
    | ch c =>
      simp only [matRE] at h
      cases sr with
      | nil => exact absurd h (by simp)
      | cons d r =>
        simp only at h
        split at h
        · rename_i hdc
          refine ⟨[d], r, rfl, ?_, h⟩
          intro x hx
          simp only [List.mem_singleton] at hx
          subst hx; subst hdc
          simp only [bodyNLFree, Bool.not_eq_true'] at hb
          intro hxe
          rw [hxe] at hb
          simp at hb
        · exact absurd h (by simp)
    | cls p =>
      simp only [matRE] at h
      cases sr with
      | nil => exact absurd h (by simp)
      | cons d r =>
        simp only at h
        split at h
        · rename_i hpd
          refine ⟨[d], r, rfl, ?_, h⟩
          intro x hx
          simp only [List.mem_singleton] at hx
          subst hx
          simp only [bodyNLFree, Bool.not_eq_true'] at hb
          intro hxe
          rw [hxe] at hpd
          rw [hb] at hpd
          exact absurd hpd (by simp)
        · exact absurd h (by simp)
    | dot =>
      simp only [matRE] at h
      cases sr with
      | nil => exact absurd h (by simp)
      | cons d r =>
        simp only at h
        split at h
        · exact absurd h (by simp)
        · rename_i hdn
          refine ⟨[d], r, rfl, ?_, h⟩
          intro x hx
          simp only [List.mem_singleton] at hx
          subst hx
          exact hdn
    | eol =>
      simp only [matRE] at h
      split at h
      · exact ⟨[], sr, rfl, by simp, h⟩
      · exact absurd h (by simp)
    | seq a b =>
      simp only [bodyNLFree, Bool.and_eq_true] at hb
      simp only [matRE] at h
      obtain ⟨p1, r1, he1, hp1, hk1⟩ := ih a ⟨sr, sc⟩ _ o hb.1 h
      simp only at hk1
      obtain ⟨p2, r2, he2, hp2, hk2⟩ := ih b ⟨r1, sc⟩ _ o hb.2 hk1
      simp only at he2
      refine ⟨p1 ++ p2, r2, ?_, ?_, hk2⟩
      · rw [he1, he2, List.append_assoc]
      · intro c hc
        rcases List.mem_append.1 hc with hc1 | hc2
        · exact hp1 c hc1
        · exact hp2 c hc2
    | alt a b =>
      simp only [bodyNLFree, Bool.and_eq_true] at hb
      simp only [matRE] at h
      cases hma : matRE n a ⟨sr, sc⟩ k with
      | some v =>
        rw [hma] at h
        simp only [mOr] at h
        cases h
        exact ih a ⟨sr, sc⟩ k o hb.1 hma
      | none =>
        rw [hma] at h
        simp only [mOr] at h
        exact ih b ⟨sr, sc⟩ k o hb.2 h
    | starG a =>
      simp only [bodyNLFree] at hb
      simp only [matRE] at h
      cases hma : matRE n a ⟨sr, sc⟩
          (fun st2 => if st2.rest.length < sr.length then matRE n (.starG a) st2 k else none) with
      | some v =>
        rw [hma] at h
        simp only [mOr] at h
        cases h
        obtain ⟨p1, r1, he1, hp1, hk1⟩ := ih a ⟨sr, sc⟩ _ o hb hma
        simp only at hk1
        split at hk1
        · obtain ⟨p2, r2, he2, hp2, hk2⟩ :=
            ih (.starG a) ⟨r1, sc⟩ k o hb hk1
          simp only at he2
          refine ⟨p1 ++ p2, r2, ?_, ?_, hk2⟩
          · rw [he1, he2, List.append_assoc]
          · intro c hc
            rcases List.mem_append.1 hc with hc1 | hc2
            · exact hp1 c hc1
            · exact hp2 c hc2
        · exact absurd hk1 (by simp)
      | none =>
        rw [hma] at h
        simp only [mOr] at h
        exact ⟨[], sr, rfl, by simp, h⟩
    | starL a =>
      simp only [bodyNLFree] at hb
      simp only [matRE] at h
      cases hks : k ⟨sr, sc⟩ with
      | some v =>
        rw [hks] at h
        simp only [mOr] at h
        cases h
        exact ⟨[], sr, rfl, by simp, hks⟩
      | none =>
        rw [hks] at h
        simp only [mOr] at h
        obtain ⟨p1, r1, he1, hp1, hk1⟩ := ih a ⟨sr, sc⟩ _ o hb h
        simp only at hk1
        split at hk1
        · obtain ⟨p2, r2, he2, hp2, hk2⟩ :=
            ih (.starL a) ⟨r1, sc⟩ k o hb hk1
          simp only at he2
          refine ⟨p1 ++ p2, r2, ?_, ?_, hk2⟩
          · rw [he1, he2, List.append_assoc]
          · intro c hc
            rcases List.mem_append.1 hc with hc1 | hc2
            · exact hp1 c hc1
            · exact hp2 c hc2
        · exact absurd hk1 (by simp)
    | grp a => simp [bodyNLFree] at hb

/-- a successful match of a pattern whose group bodies are newline-free,
started with a newline-free capture, hands its continuation a newline-free
capture. -/
theorem matRE_cap_nlfree :
    ∀ (n : Nat) (re : RE) (st : MSt) (k : MSt → Option MSt) (o : MSt),
    capNLFree re = true → nlcap st.cap → matRE n re st k = some o →
    ∃ st2, nlcap st2.cap ∧ k st2 = some o := by
  intro n
  induction n with
  | zero => intro re st k o _ _ h; simp [matRE] at h
  | succ n ih =>
    intro re st k o hc hst h
    obtain ⟨sr, sc⟩ := st
    cases re with
    | eps =>
      simp only [matRE] at h
      exact ⟨⟨sr, sc⟩, hst, h⟩
    | ch c =>
      simp only [matRE] at h
      cases sr with
      | nil => exact absurd h (by simp)
      | cons d r =>
        simp only at h
        split at h
        · exact ⟨⟨r, sc⟩, hst, h⟩
        · exact absurd h (by simp)
    | cls p =>
      simp only [matRE] at h
      cases sr with
      | nil => exact absurd h (by simp)
      | cons d r =>
        simp only at h
        split at h
        · exact ⟨⟨r, sc⟩, hst, h⟩
        · exact absurd h (by simp)
    | dot =>
      simp only [matRE] at h
      cases sr with
      | nil => exact absurd h (by simp)
      | cons d r =>
        simp only at h
        split at h
        · exact absurd h (by simp)
        · exact ⟨⟨r, sc⟩, hst, h⟩
    | eol =>
      simp only [matRE] at h
      split at h
      · exact ⟨⟨sr, sc⟩, hst, h⟩
      · exact absurd h (by simp)
    | seq a b =>
      simp only [capNLFree, Bool.and_eq_true] at hc
      simp only [matRE] at h
      obtain ⟨st1, h1, hk1⟩ := ih a ⟨sr, sc⟩ _ o hc.1 hst h
      exact ih b st1 k o hc.2 h1 hk1
    | alt a b =>
      simp only [capNLFree, Bool.and_eq_true] at hc
      simp only [matRE] at h
      cases hma : matRE n a ⟨sr, sc⟩ k with
      | some v =>
        rw [hma] at h
        simp only [mOr] at h
        cases h
        exact ih a ⟨sr, sc⟩ k o hc.1 hst hma
      | none =>
        rw [hma] at h
        simp only [mOr] at h
        exact ih b ⟨sr, sc⟩ k o hc.2 hst h
    | starG a =>
      simp only [capNLFree] at hc
      simp only [matRE] at h
      cases hma : matRE n a ⟨sr, sc⟩
          (fun st2 => if st2.rest.length < sr.length then matRE n (.starG a) st2 k else none) with
      | some v =>
        rw [hma] at h
        simp only [mOr] at h
        cases h
        obtain ⟨st1, h1, hk1⟩ := ih a ⟨sr, sc⟩ _ o hc hst hma
        have hk2 : (if st1.rest.length < sr.length
            then matRE n (.starG a) st1 k else none) = some o := hk1
        split at hk2
        · exact ih (.starG a) st1 k o hc h1 hk2
        · exact absurd hk2 (by simp)
      | none =>
        rw [hma] at h
        simp only [mOr] at h
        exact ⟨⟨sr, sc⟩, hst, h⟩
    | starL a =>
      simp only [capNLFree] at hc
      simp only [matRE] at h
      cases hks : k ⟨sr, sc⟩ with
      | some v =>
        rw [hks] at h
        simp only [mOr] at h
        cases h
        exact ⟨⟨sr, sc⟩, hst, hks⟩
      | none =>
        rw [hks] at h
        simp only [mOr] at h
        obtain ⟨st1, h1, hk1⟩ := ih a ⟨sr, sc⟩ _ o hc hst h
        have hk2 : (if st1.rest.length < sr.length
            then matRE n (.starL a) st1 k else none) = some o := hk1
        split at hk2
        · exact ih (.starL a) st1 k o hc h1 hk2
        · exact absurd hk2 (by simp)
    | grp a =>
      simp only [capNLFree] at hc
      simp only [matRE] at h
      obtain ⟨pre, rest, he, hp, hk⟩ := matRE_consume_nlfree n a ⟨sr, sc⟩ _ o hc h
      simp only at hk he
      refine ⟨⟨rest, some (sr.take (sr.length - rest.length))⟩, ?_, hk⟩
      have hlen : sr.length - rest.length = pre.length := by
        rw [he, List.length_append, Nat.add_sub_cancel]
      have htake : sr.take (sr.length - rest.length) = pre := by
        rw [hlen, he, List.take_left]
      rw [htake]
      simp only [nlcap]
      intro hmem
      exact hp '\n' hmem rfl

/-- a successful search yields a newline-free capture when all group bodies
are newline-free. -/
theorem searchFrom_nlcap (re : RE) (hre : capNLFree re = true) (fuel : Nat) :
    ∀ (s : List Char) (st : MSt), searchFrom re fuel s = some st → nlcap st.cap := by
  intro s
  induction s with
  | nil =>
    intro st h
    simp only [searchFrom] at h
    cases hm : matRE fuel re ⟨[], none⟩ some with
    | none => rw [hm] at h; exact absurd h (by simp)
    | some st1 =>
      rw [hm] at h
      simp only at h
      obtain ⟨st2, hn, hk⟩ := matRE_cap_nlfree fuel re ⟨[], none⟩ some st1 hre trivial hm
      injection hk with hk2
      injection h with h2
      rw [← h2, ← hk2]
      exact hn
  | cons c r ih =>
    intro st h
    simp only [searchFrom] at h
    cases hm : matRE fuel re ⟨c :: r, none⟩ some with
    | none => rw [hm] at h; exact ih st h
    | some st1 =>
      rw [hm] at h
      simp only at h
      obtain ⟨st2, hn, hk⟩ := matRE_cap_nlfree fuel re ⟨c :: r, none⟩ some st1 hre trivial hm
      injection hk with hk2
      injection h with h2
      rw [← h2, ← hk2]
      exact hn

/-- the captured group of a successful re.search of a pattern with
newline-free group bodies contains no newline. -/
theorem searchGroup1_nlfree (re : RE) (hre : capNLFree re = true)
    (s v : List Char) (h : searchGroup1 re s = some v) : '\n' ∉ v := by
  unfold searchGroup1 pySearch at h
  cases hm : searchFrom re (reFuel re s) s with
  | none => rw [hm] at h; exact absurd h (by simp)
  | some st =>
    rw [hm] at h
    simp only at h
    have hn := searchFrom_nlcap re hre (reFuel re s) s st hm
    rw [h] at hn
    exact hn

/-- literal patterns have no groups at all. -/
theorem capNLFree_reStr (s : String) : capNLFree (reStr s) = true := by
  unfold reStr
  induction s.data with
  | nil => rfl
  | cons c t ih => simp [capNLFree, ih]

/-! ## str.strip() lemmas -/

/-- a list with no leading and no trailing whitespace. -/
def strippedList (l : List Char) : Prop :=
  (∀ c, l.head? = some c → isPySpace c = false) ∧
  (∀ c, l.getLast? = some c → isPySpace c = false)

/-- a string with no leading and no trailing whitespace. -/
def strippedStr (s : String) : Prop := strippedList s.data

theorem head?_dropWhile_false (p : Char → Bool) :
    ∀ (l : List Char) (c : Char), (l.dropWhile p).head? = some c → p c = false := by
  intro l
  induction l with
  | nil => intro c h; simp [List.dropWhile] at h
  | cons a t ih =>
    intro c h
    rw [List.dropWhile_cons] at h
    by_cases hpa : p a = true
    · rw [if_pos hpa] at h
      exact ih c h
    · rw [if_neg hpa] at h
      simp only [List.head?_cons, Option.some.injEq] at h
      rw [← h]
      exact Bool.not_eq_true (p a) ▸ (by simpa using hpa)

theorem dropWhile_suffix (p : Char → Bool) :
    ∀ l : List Char, ∃ t, l = t ++ l.dropWhile p := by
  intro l
  induction l with
  | nil => exact ⟨[], rfl⟩
  | cons a t ih =>
    by_cases hpa : p a = true
    · obtain ⟨u, hu⟩ := ih
      refine ⟨a :: u, ?_⟩
      rw [List.dropWhile_cons, if_pos hpa, List.cons_append]
      exact congrArg (a :: ·) hu
    · refine ⟨[], ?_⟩
      rw [List.dropWhile_cons, if_neg hpa]
      rfl

/-- str.strip() leaves neither leading nor trailing whitespace. -/
theorem strippedList_pyStrip (l : List Char) : strippedList (pyStrip l) := by
  unfold pyStrip strippedList
  constructor
  · intro c h
    rw [List.head?_reverse] at h
    obtain ⟨t, ht⟩ := dropWhile_suffix isPySpace (l.dropWhile isPySpace).reverse
    cases hrr : (l.dropWhile isPySpace).reverse.dropWhile isPySpace with
    | nil => rw [hrr] at h; simp at h
    | cons x xs =>
      have hne : (l.dropWhile isPySpace).reverse.dropWhile isPySpace ≠ [] := by
        rw [hrr]; simp
      have hlast : ((l.dropWhile isPySpace).reverse).getLast?
          = ((l.dropWhile isPySpace).reverse.dropWhile isPySpace).getLast? := by
        conv_lhs => rw [ht]
        exact List.getLast?_append_of_ne_nil t hne
      rw [← hlast, List.getLast?_reverse] at h
      exact head?_dropWhile_false isPySpace l c h
  · intro c h
    rw [List.getLast?_reverse] at h
    exact head?_dropWhile_false isPySpace (l.dropWhile isPySpace).reverse c h

/-- str.strip() on a String leaves neither leading nor trailing whitespace. -/
theorem strippedStr_pyStripStr (s : String) : strippedStr (pyStripStr s) := by
  unfold strippedStr pyStripStr
  show strippedList (pyStrip s.data).asString.data
  have : (pyStrip s.data).asString.data = pyStrip s.data := rfl
  rw [this]
  exact strippedList_pyStrip s.data

/-! ## fold lemma for the metadata extractor -/

/-- the metadata fold only ever appends, so membership in the accumulator is
preserved. -/
theorem mem_metadata_foldl (info : List Char) (x : String × String) :
    ∀ (attrs : List String) (init : List (String × String)), x ∈ init →
    x ∈ attrs.foldl (fun metadata attr =>
      match searchGroup1 (metaPattern attr) info with
      | some v => metadata ++ [(attr, v.asString)]
      | none => metadata) init := by
  intro attrs
  induction attrs with
  | nil => intro init h; exact h
  | cons a t ih =>
    intro init h
    rw [List.foldl_cons]
    apply ih
    cases searchGroup1 (metaPattern a) info with
    | some v => exact List.mem_append_left _ h
    | none => exact h

/-! ## Claim theorems -/

/-- C3: for every report text that contains a job_dir label with a non-empty
value and contains neither an explicit std_out_file nor std_err_file value,
get_job_details returns std_out_file equal to the path join of the job
directory with job_name.out and std_err_file equal to the path join with
job_name.err, in both the plain and the authenticated variant. -/
theorem C3_path_derivation (job_name output d : String)
    (h1 : AutosysLogs.stdOutFileField output.data = none)
    (h2 : AutosysLogs.stdErrFileField output.data = none)
    (h3 : AutosysLogs.jobDirField output.data = some d)
    (hne : d ≠ "")
    (h4 : AuthLogs.stdOutFileField output.data = none)
    (h5 : AuthLogs.stdErrFileField output.data = none)
    (h6 : AuthLogs.jobDirField output.data = some d) :
    ((AutosysLogs.parseJobDetails job_name output).std_out_file
        = some (osPathJoin d (job_name ++ ".out")) ∧
     (AutosysLogs.parseJobDetails job_name output).std_err_file
        = some (osPathJoin d (job_name ++ ".err"))) ∧
    ((AuthLogs.parseJobDetails job_name output).std_out_file
        = some (osPathJoin d (job_name ++ ".out")) ∧
     (AuthLogs.parseJobDetails job_name output).std_err_file
        = some (osPathJoin d (job_name ++ ".err"))) := by
  have hdummy : d ≠ "" := hne
  refine ⟨⟨?_, ?_⟩, ?_, ?_⟩ <;>
    simp [AutosysLogs.parseJobDetails, AuthLogs.parseJobDetails, h1, h2, h3, h4, h5, h6]

/-- C3 witness: the concrete report text containing only a job_dir label. -/
theorem C3_path_derivation_witness :
    ((AutosysLogs.parseJobDetails "J" "job_dir: /a/b").std_out_file
        = some (osPathJoin "/a/b" ("J" ++ ".out")) ∧
     (AutosysLogs.parseJobDetails "J" "job_dir: /a/b").std_err_file
        = some (osPathJoin "/a/b" ("J" ++ ".err"))) ∧
    ((AuthLogs.parseJobDetails "J" "job_dir: /a/b").std_out_file
        = some (osPathJoin "/a/b" ("J" ++ ".out")) ∧
     (AuthLogs.parseJobDetails "J" "job_dir: /a/b").std_err_file
        = some (osPathJoin "/a/b" ("J" ++ ".err"))) :=
  C3_path_derivation "J" "job_dir: /a/b" "/a/b" (by decide) (by decide) (by decide)
    (by decide) (by decide) (by decide) (by decide)

/-- C8: for every combination of present and absent username, password,
instance and server values, the credential-flag suffix appended to the
primary autorep command is identical, flag for flag and in the same order,
to the suffix appended to the fallback autosyslog command; absent
credentials are omitted from both. -/
theorem C8_credential_suffix_equal (r : AuthLogs.Retriever) (job_name : String)
    (is_stdout : Bool) :
    (AuthLogs.autorepCmd r job_name).drop 4
      = (AuthLogs.autosyslogCmd r job_name is_stdout).drop 4 := by
  obtain ⟨u, p, i, s⟩ := r
  simp only [AuthLogs.autorepCmd, AuthLogs.autosyslogCmd]
  cases u <;> cases p <;> cases i <;> cases s <;> simp only <;> split_ifs <;> rfl

/-- count of non-echoed getpass prompts in a prompt trace -/
def countGetpass (evs : List AuthLogs.PEv) : Nat :=
  (evs.filter (fun e =>
    match e with | AuthLogs.PEv.getpassPrompt _ => true | _ => false)).length

/-- count of plain-text input prompts in a prompt trace -/
def countInput (evs : List AuthLogs.PEv) : Nat :=
  (evs.filter (fun e =>
    match e with | AuthLogs.PEv.inputPrompt _ => true | _ => false)).length

/-- C7: in the authenticated variant, a (truthy) username without a password
triggers exactly one non-echoed getpass prompt and zero when the password is
supplied; a username without an instance triggers exactly one plain-text
input prompt and zero otherwise; with no username no prompt at all occurs. -/
theorem C7_prompt_counts (pr : AuthLogs.Prompts) (u p i : Option String) :
    (optStrTruthy u = true → optStrTruthy p = false →
      countGetpass (AuthLogs.resolveCredentials pr u p i).1 = 1) ∧
    (optStrTruthy u = true → optStrTruthy p = true →
      countGetpass (AuthLogs.resolveCredentials pr u p i).1 = 0) ∧
    (optStrTruthy u = true → optStrTruthy i = false →
      countInput (AuthLogs.resolveCredentials pr u p i).1 = 1) ∧
    (optStrTruthy u = true → optStrTruthy i = true →
      countInput (AuthLogs.resolveCredentials pr u p i).1 = 0) ∧
    (optStrTruthy u = false → (AuthLogs.resolveCredentials pr u p i).1 = []) := by
  cases hu : optStrTruthy u <;> cases hp : optStrTruthy p <;> cases hi : optStrTruthy i <;>
    simp [AuthLogs.resolveCredentials, hu, hp, hi, countGetpass, countInput,
      List.filter]

/-- C7 witness: each prompt-count clause at a concrete credential
combination. -/
theorem C7_prompt_counts_witness :
    countGetpass (AuthLogs.resolveCredentials ⟨"pw", "inst"⟩ (some "u") none none).1 = 1 ∧
    countGetpass (AuthLogs.resolveCredentials ⟨"pw", "inst"⟩ (some "u") (some "p") none).1 = 0 ∧
    countInput (AuthLogs.resolveCredentials ⟨"pw", "inst"⟩ (some "u") none none).1 = 1 ∧
    countInput (AuthLogs.resolveCredentials ⟨"pw", "inst"⟩ (some "u") (some "p") (some "i")).1 = 0 ∧
    (AuthLogs.resolveCredentials ⟨"pw", "inst"⟩ none (some "p") none).1 = [] :=
  ⟨(C7_prompt_counts ⟨"pw", "inst"⟩ (some "u") none none).1 (by decide) (by decide),
   (C7_prompt_counts ⟨"pw", "inst"⟩ (some "u") (some "p") none).2.1 (by decide) (by decide),
   (C7_prompt_counts ⟨"pw", "inst"⟩ (some "u") none none).2.2.1 (by decide) (by decide),
   (C7_prompt_counts ⟨"pw", "inst"⟩ (some "u") (some "p") (some "i")).2.2.2.1 (by decide) (by decide),
   (C7_prompt_counts ⟨"pw", "inst"⟩ none (some "p") none).2.2.2.2 (by decide)⟩

/-- a successful run_command of the full summarizer returns the stripped
subprocess stdout. -/
theorem sysRunCommandSome (w : ShWorld) (c : String) (s : String)
    (h : (SystemLogs.run_command w c).2 = some s) : s = pyStripStr (w c).stdout := by
  simp only [SystemLogs.run_command] at h
  split at h
  · simp at h
  · simp only at h
    exact (Option.some.injEq _ _ ▸ h :).symm

/-- a successful run_command of the minimal summarizer returns the stripped
subprocess stdout. -/
theorem minRunCommandSome (w : ShWorld) (c : String) (s : String)
    (h : (MinimalLogs.run_command w c).2 = some s) : s = pyStripStr (w c).stdout := by
  simp only [MinimalLogs.run_command] at h
  split at h
  · simp at h
  · simp only at h
    exact (Option.some.injEq _ _ ▸ h :).symm

/-- C10: in both summarizer variants, a successful run_command returns the
subprocess stdout with leading and trailing whitespace stripped, so every
text field placed into the report is either None or a whitespace-stripped
string. -/
theorem C10_run_command_strips (w : ShWorld) (c : String) (job_name : String)
    (run_number : Option Int) :
    (∀ s, (SystemLogs.run_command w c).2 = some s →
       s = pyStripStr (w c).stdout ∧ strippedStr s) ∧
    (∀ s, (MinimalLogs.run_command w c).2 = some s →
       s = pyStripStr (w c).stdout ∧ strippedStr s) ∧
    (∀ s, (SystemLogs.get_system_logs w job_name run_number).2.job_info = some s →
       strippedStr s) ∧
    (∀ s, (SystemLogs.get_system_logs w job_name run_number).2.system_logs = some s →
       strippedStr s) ∧
    (∀ s, (SystemLogs.get_system_logs w job_name run_number).2.run_details = some s →
       strippedStr s) ∧
    (∀ s, (SystemLogs.get_system_logs w job_name run_number).2.status_history = some s →
       strippedStr s) ∧
    (∀ s, (MinimalLogs.get_system_logs w job_name run_number).2.system_logs = some s →
       strippedStr s) := by
  refine ⟨?_, ?_, ?_, ?_, ?_, ?_, ?_⟩
  · intro s h
    have he := sysRunCommandSome w c s h
    exact ⟨he, he ▸ strippedStr_pyStripStr _⟩
  · intro s h
    have he := minRunCommandSome w c s h
    exact ⟨he, he ▸ strippedStr_pyStripStr _⟩
  · intro s h
    have he := sysRunCommandSome w (SystemLogs.jobInfoCmd job_name) s h
    exact he ▸ strippedStr_pyStripStr _
  · intro s h
    have he := sysRunCommandSome w (SystemLogs.syslogCmd job_name run_number) s h
    exact he ▸ strippedStr_pyStripStr _
  · intro s h
    have he := sysRunCommandSome w (SystemLogs.runDetailsCmd job_name run_number) s h
    exact he ▸ strippedStr_pyStripStr _
  · intro s h
    have he := sysRunCommandSome w (SystemLogs.statusHistCmd job_name) s h
    exact he ▸ strippedStr_pyStripStr _
  · intro s h
    have he := minRunCommandSome w (MinimalLogs.syslogCmd job_name run_number) s h
    exact he ▸ strippedStr_pyStripStr _

/-- concrete oracle whose every command succeeds with padded stdout -/
def stripWitWorld : ShWorld := fun _ => ⟨0, "  hi \n", ""⟩

/-- C10 witness: a concrete successful command whose stdout carries leading
and trailing whitespace. -/
theorem C10_run_command_strips_witness :
    (SystemLogs.run_command stripWitWorld "cmd").2 = some "hi" ∧
    ("hi" = pyStripStr (stripWitWorld "cmd").stdout ∧ strippedStr "hi") :=
  ⟨by decide,
   (C10_run_command_strips stripWitWorld "cmd" "J" none).1 "hi" (by decide)⟩

/-- C1 counterexample: for the report text consisting of just a job_dir
label with no value the capture matches empty, yet get_job_details uses the
empty directory to derive both file paths instead of leaving them absent;
and for job info consisting of just a machine label with no value the empty
capture is stored in the metadata mapping. -/
theorem C1_counterexample :
    searchGroup1 JOB_DIR_PATTERN ("job_dir:").data = some [] ∧
    (AutosysLogs.parseJobDetails "JOB" "job_dir:").std_out_file = some "JOB.out" ∧
    (AutosysLogs.parseJobDetails "JOB" "job_dir:").std_err_file = some "JOB.err" ∧
    searchGroup1 (metaPattern "machine") ("machine:").data = some [] ∧
    SystemLogs.extract_job_metadata (some "machine:") = [("machine", "")] := by
  refine ⟨?_, ?_, ?_, ?_, ?_⟩ <;> decide

/-- truthiness implies the shown value is non-empty. -/
theorem optStrTruthy_optShow_ne (o : Option String) (h : optStrTruthy o = true) :
    optShow o ≠ "" := by
  cases o with
  | none => simp [optStrTruthy] at h
  | some s => simpa [optStrTruthy, optShow] using h

/-- C1 amended: in both the plain and the authenticated variant an empty
std_out_file or std_err_file capture is treated as unset (the field falls
through to path derivation), but in both variants an empty job_dir capture
IS used to derive the file paths (the empty directory is joined with the
conventional file names) and an empty metadata attribute capture IS stored
in the metadata mapping as the empty string. -/
theorem C1_amended (job_name out : String) :
    (searchGroup1 STD_OUT_FILE_PATTERN out.data = some [] →
       AutosysLogs.stdOutFileField out.data = none) ∧
    (searchGroup1 STD_ERR_FILE_PATTERN out.data = some [] →
       AutosysLogs.stdErrFileField out.data = none) ∧
    (AutosysLogs.stdOutFileField out.data = none →
     searchGroup1 JOB_DIR_PATTERN out.data = some [] →
       (AutosysLogs.parseJobDetails job_name out).std_out_file
         = some (osPathJoin "" (job_name ++ ".out"))) ∧
    (searchGroup1 STD_OUT_FILE_PATTERN out.data = some [] →
       AuthLogs.stdOutFileField out.data = none) ∧
    (searchGroup1 STD_ERR_FILE_PATTERN out.data = some [] →
       AuthLogs.stdErrFileField out.data = none) ∧
    (AuthLogs.stdOutFileField out.data = none →
     searchGroup1 JOB_DIR_PATTERN out.data = some [] →
       (AuthLogs.parseJobDetails job_name out).std_out_file
         = some (osPathJoin "" (job_name ++ ".out"))) ∧
    (out ≠ "" → searchGroup1 (metaPattern "machine") out.data = some [] →
       ("machine", "") ∈ SystemLogs.extract_job_metadata (some out)) := by
  refine ⟨?_, ?_, ?_, ?_, ?_, ?_, ?_⟩
  · intro h
    simp [AutosysLogs.stdOutFileField, h]
  · intro h
    simp [AutosysLogs.stdErrFileField, h]
  · intro h1 h2
    have hjd : AutosysLogs.jobDirField out.data = some "" := by
      simp [AutosysLogs.jobDirField, h2]
      rfl
    simp [AutosysLogs.parseJobDetails, h1, hjd]
  · intro h
    simp [AuthLogs.stdOutFileField, h]
  · intro h
    simp [AuthLogs.stdErrFileField, h]
  · intro h1 h2
    have hjd : AuthLogs.jobDirField out.data = some "" := by
      simp [AuthLogs.jobDirField, h2]
      rfl
    simp [AuthLogs.parseJobDetails, h1, hjd]
  · intro hne h
    have ht : optStrTruthy (some out) = true := by
      simp [optStrTruthy]
      exact hne
    have hstep : SystemLogs.extract_job_metadata (some out)
        = SystemLogs.attributes.foldl (fun metadata attr =>
            match searchGroup1 (metaPattern attr) (optShow (some out)).data with
            | some v => metadata ++ [(attr, v.asString)]
            | none => metadata) [] := by
      simp [SystemLogs.extract_job_metadata, ht]
    rw [hstep]
    have hattrs : SystemLogs.attributes = "machine" :: SystemLogs.attributes.tail := rfl
    rw [hattrs, List.foldl_cons]
    apply mem_metadata_foldl
    have hOS : (optShow (some out)).data = out.data := rfl
    rw [hOS, h]
    simp only [List.nil_append, List.mem_singleton]
    rfl

/-- C1 amended witness: one concrete input for each clause, in both
variants. -/
theorem C1_amended_witness :
    AutosysLogs.stdOutFileField ("std_out_file:").data = none ∧
    (AutosysLogs.parseJobDetails "J" "job_dir:").std_out_file
      = some (osPathJoin "" ("J" ++ ".out")) ∧
    AuthLogs.stdOutFileField ("std_out_file:").data = none ∧
    (AuthLogs.parseJobDetails "J" "job_dir:").std_out_file
      = some (osPathJoin "" ("J" ++ ".out")) ∧
    ("machine", "") ∈ SystemLogs.extract_job_metadata (some "machine:") :=
  ⟨(C1_amended "J" "std_out_file:").1 (by decide),
   (C1_amended "J" "job_dir:").2.2.1 (by decide) (by decide),
   (C1_amended "J" "std_out_file:").2.2.2.1 (by decide),
   (C1_amended "J" "job_dir:").2.2.2.2.2.1 (by decide) (by decide),
   (C1_amended "J" "machine:").2.2.2.2.2.2 (by decide) (by decide)⟩

/-- C4 counterexample: the Last Run pattern captures a value that spans a
line boundary (the capture contains a newline), and the job_dir pattern
takes its value from the line after the one containing the label. -/
theorem C4_counterexample :
    searchGroup1 LAST_RUN_PATTERN ("Last Run: 1/1\n2:2").data
      = some ("1/1\n2:2").data ∧
    '\n' ∈ ("1/1\n2:2").data ∧
    searchGroup1 JOB_DIR_PATTERN ("job_dir:\nfoo").data = some ("foo").data := by
  refine ⟨?_, ?_, ?_⟩ <;> decide

/-- C4 amended: every pattern either fails to match (the field stays unset;
extraction is a total function and never errors) or captures a value; the
captured values of the status, std_out_file, std_err_file, job_dir and
metadata patterns can never contain a newline and hence cannot span a line
boundary, though a captured value may lie on a later line than its label and
the Last Run capture may itself span a line boundary. -/
theorem C4_amended (s v : List Char) :
    (searchGroup1 STATUS_PATTERN s = some v → '\n' ∉ v) ∧
    (searchGroup1 AUTH_STATUS_PATTERN s = some v → '\n' ∉ v) ∧
    (searchGroup1 STD_OUT_FILE_PATTERN s = some v → '\n' ∉ v) ∧
    (searchGroup1 STD_ERR_FILE_PATTERN s = some v → '\n' ∉ v) ∧
    (searchGroup1 JOB_DIR_PATTERN s = some v → '\n' ∉ v) ∧
    (∀ attr : String, searchGroup1 (metaPattern attr) s = some v → '\n' ∉ v) := by
  refine ⟨searchGroup1_nlfree _ (by decide) s v,
          searchGroup1_nlfree _ (by decide) s v,
          searchGroup1_nlfree _ (by decide) s v,
          searchGroup1_nlfree _ (by decide) s v,
          searchGroup1_nlfree _ (by decide) s v,
          fun attr => searchGroup1_nlfree _ ?_ s v⟩
  simp [metaPattern, capNLFree, bodyNLFree, capNLFree_reStr]

/-- C4 amended witness: a concrete matching input for the std_out_file
clause. -/
theorem C4_amended_witness :
    searchGroup1 STD_OUT_FILE_PATTERN ("std_out_file: abc").data = some ("abc").data ∧
    '\n' ∉ ("abc").data :=
  ⟨by decide,
   (C4_amended ("std_out_file: abc").data ("abc").data).2.2.1 (by decide)⟩

/-- oracle whose every command succeeds with empty output -/
def emptyOkWorld : World := fun _ => ⟨0, "", ""⟩

/-- C9 counterexample: argument handling of the plain variant is only the
argc check, which an explicitly empty job-name argument passes, and the
constructed JobDetails record then carries an empty job_name. -/
theorem C9_counterexample :
    ["prog", ""].length = 2 ∧
    AutosysLogs.get_job_details emptyOkWorld ""
      = Except.ok { job_name := "", status := none, last_run := none,
                    std_out_file := none, std_err_file := none } := by
  refine ⟨by decide, by rfl⟩

/-- C9 amended: in the authenticated variant a successful parse_arguments
always yields a non-empty job name, the constructed record carries exactly
the given job name, and every other field is a successfully parsed string or
absent (a failed match yields absence, never an error): status and last_run
are the matched capture or None, an explicit std_out_file or std_err_file
value is the stripped non-empty capture, and the two file fields as
constructed are None, the explicit capture value, or the path derived from
the captured job directory; the argc-only check of the plain variant does
not exclude an explicitly empty job name. -/
theorem C9_amended (a : AuthLogs.RawArgs) (args : AuthLogs.Args)
    (job_name out : String) :
    (AuthLogs.parse_arguments a = Except.ok args → args.job_name ≠ "") ∧
    ((AuthLogs.parseJobDetails job_name out).job_name = job_name) ∧
    ((AuthLogs.parseJobDetails job_name out).status = none ∨
      ∃ v, searchGroup1 AUTH_STATUS_PATTERN out.data = some v ∧
        (AuthLogs.parseJobDetails job_name out).status = some v.asString) ∧
    ((AuthLogs.parseJobDetails job_name out).last_run = none ∨
      ∃ v, searchGroup1 AUTH_LAST_RUN_PATTERN out.data = some v ∧
        (AuthLogs.parseJobDetails job_name out).last_run = some v.asString) ∧
    (∀ s, AuthLogs.stdOutFileField out.data = some s →
      ∃ v, searchGroup1 STD_OUT_FILE_PATTERN out.data = some v ∧ v ≠ [] ∧
        s = (pyStrip v).asString) ∧
    (∀ s, AuthLogs.stdErrFileField out.data = some s →
      ∃ v, searchGroup1 STD_ERR_FILE_PATTERN out.data = some v ∧ v ≠ [] ∧
        s = (pyStrip v).asString) ∧
    ((AuthLogs.parseJobDetails job_name out).std_out_file = none ∨
      (∃ s, AuthLogs.stdOutFileField out.data = some s ∧
        (AuthLogs.parseJobDetails job_name out).std_out_file = some s) ∨
      (∃ d, AuthLogs.jobDirField out.data = some d ∧
        (AuthLogs.parseJobDetails job_name out).std_out_file
          = some (osPathJoin d (job_name ++ ".out")))) ∧
    ((AuthLogs.parseJobDetails job_name out).std_err_file = none ∨
      (∃ s, AuthLogs.stdErrFileField out.data = some s ∧
        (AuthLogs.parseJobDetails job_name out).std_err_file = some s) ∨
      (∃ d, AuthLogs.jobDirField out.data = some d ∧
        (AuthLogs.parseJobDetails job_name out).std_err_file
          = some (osPathJoin d (job_name ++ ".err")))) := by
  refine ⟨?_, rfl, ?_, ?_, ?_, ?_, ?_, ?_⟩
  · intro h
    simp only [AuthLogs.parse_arguments] at h
    cases htr : optStrTruthy (if !optStrTruthy a.job_name && optStrTruthy a.job_name_positional
        then a.job_name_positional else a.job_name) with
    | false =>
      rw [htr] at h
      simp at h
    | true =>
      rw [htr] at h
      simp only [Bool.not_true, Bool.false_eq_true, if_false, Except.ok.injEq] at h
      subst h
      exact optStrTruthy_optShow_ne _ htr
  · cases hs : searchGroup1 AUTH_STATUS_PATTERN out.data with
    | none =>
      left
      simp [AuthLogs.parseJobDetails, AuthLogs.statusField, hs]
    | some v =>
      right
      exact ⟨v, rfl, by simp [AuthLogs.parseJobDetails, AuthLogs.statusField, hs]⟩
  · cases hs : searchGroup1 AUTH_LAST_RUN_PATTERN out.data with
    | none =>
      left
      simp [AuthLogs.parseJobDetails, AuthLogs.lastRunField, hs]
    | some v =>
      right
      exact ⟨v, rfl, by simp [AuthLogs.parseJobDetails, AuthLogs.lastRunField, hs]⟩
  · intro s h
    simp only [AuthLogs.stdOutFileField] at h
    cases hm : searchGroup1 STD_OUT_FILE_PATTERN out.data with
    | none =>
      rw [hm] at h
      exact absurd h (by simp)
    | some v =>
      rw [hm] at h
      have h2 : (if v ≠ [] then some ((pyStrip v).asString) else none) = some s := h
      split at h2
      · rename_i hv
        refine ⟨v, rfl, hv, ?_⟩
        injection h2 with h3
        exact h3.symm
      · exact absurd h2 (by simp)
  · intro s h
    simp only [AuthLogs.stdErrFileField] at h
    cases hm : searchGroup1 STD_ERR_FILE_PATTERN out.data with
    | none =>
      rw [hm] at h
      exact absurd h (by simp)
    | some v =>
      rw [hm] at h
      have h2 : (if v ≠ [] then some ((pyStrip v).asString) else none) = some s := h
      split at h2
      · rename_i hv
        refine ⟨v, rfl, hv, ?_⟩
        injection h2 with h3
        exact h3.symm
      · exact absurd h2 (by simp)
  · cases ho : AuthLogs.stdOutFileField out.data <;>
    cases he : AuthLogs.stdErrFileField out.data <;>
    cases hd : AuthLogs.jobDirField out.data <;>
      simp [AuthLogs.parseJobDetails, ho, he, hd]
  · cases ho : AuthLogs.stdOutFileField out.data <;>
    cases he : AuthLogs.stdErrFileField out.data <;>
    cases hd : AuthLogs.jobDirField out.data <;>
      simp [AuthLogs.parseJobDetails, ho, he, hd]

/-- C9 amended witness: a successful parse from only a positional job name
yields that non-empty name, and a concrete explicit std_out_file value is
grounded in its non-empty capture. -/
theorem C9_amended_witness :
    AuthLogs.parse_arguments ⟨none, none, none, none, none, some "J"⟩
      = Except.ok ⟨"J", none, none, none, none⟩ ∧
    ("J" : String) ≠ "" ∧
    (∃ v, searchGroup1 STD_OUT_FILE_PATTERN ("std_out_file: /x").data = some v ∧
      v ≠ [] ∧ ("/x" : String) = (pyStrip v).asString) :=
  ⟨by rfl,
   (C9_amended ⟨none, none, none, none, none, some "J"⟩
      ⟨"J", none, none, none, none⟩ "J" "").1 (by rfl),
   (C9_amended ⟨none, none, none, none, none, some "J"⟩
      ⟨"J", none, none, none, none⟩ "J" "std_out_file: /x").2.2.2.2.1
     "/x" (by decide)⟩

/-- C5: in both the plain and the authenticated variant, for every
job-details record whose resolved stdout path does not exist on the
filesystem while the resolved stderr path does, the presenter invokes the
external fallback log command exactly once and only for the stdout stream
(with the credential flags in the authenticated variant); a failure of that
fallback is reported as an error line but the stderr stream is still read
and its contents printed. -/
theorem C5_fallback_stdout_only (w : World) (fs : FS) (r : AuthLogs.Retriever)
    (jd : AutosysLogs.JobDetails) (p q : String)
    (hp : jd.std_out_file = some p) (hpne : p ≠ "")
    (hq : jd.std_err_file = some q) (hqne : q ≠ "")
    (hex : fs.pathExists p = false) (heq : fs.pathExists q = true) :
    execEvents (AutosysLogs.getJobLogsTrace w fs jd)
      = [["autosyslog", "-j", jd.job_name, "-o"]] ∧
    (∀ c, fs.readFile q = Except.ok c →
       Ev.print c ∈ AutosysLogs.getJobLogsTrace w fs jd) ∧
    ((w (AutosysLogs.autosyslogCmd jd.job_name true)).exitCode ≠ 0 →
       Ev.print ("Error accessing stdout log: "
         ++ calledProcessErrorStr (AutosysLogs.autosyslogCmd jd.job_name true)
              (w (AutosysLogs.autosyslogCmd jd.job_name true)).exitCode)
         ∈ AutosysLogs.getJobLogsTrace w fs jd) ∧
    execEvents (AuthLogs.getJobLogsTrace w fs r jd)
      = [AuthLogs.autosyslogCmd r jd.job_name true] ∧
    (∀ c, fs.readFile q = Except.ok c →
       Ev.print c ∈ AuthLogs.getJobLogsTrace w fs r jd) ∧
    ((w (AuthLogs.autosyslogCmd r jd.job_name true)).exitCode ≠ 0 →
       Ev.print ("Error running autosyslog command. Exit code: "
         ++ toString (w (AuthLogs.autosyslogCmd r jd.job_name true)).exitCode)
         ∈ AuthLogs.getJobLogsTrace w fs r jd) := by
  refine ⟨?_, ?_, ?_, ?_, ?_, ?_⟩
  · by_cases hw : (w (AutosysLogs.autosyslogCmd jd.job_name true)).exitCode = 0 <;>
    cases hr : fs.readFile q <;>
      simp [AutosysLogs.getJobLogsTrace, AutosysLogs.jobHeader, AutosysLogs.stdoutBlock,
        AutosysLogs.stderrBlock, AutosysLogs.autosyslogCmd, execEvents,
        hp, hq, hpne, hqne, hex, heq, hw, hr]
  · intro c hc
    by_cases hw : (w (AutosysLogs.autosyslogCmd jd.job_name true)).exitCode = 0 <;>
      simp [AutosysLogs.getJobLogsTrace, AutosysLogs.jobHeader, AutosysLogs.stdoutBlock,
        AutosysLogs.stderrBlock, AutosysLogs.autosyslogCmd,
        hp, hq, hpne, hqne, hex, heq, hw, hc]
  · intro hw
    simp [AutosysLogs.autosyslogCmd] at hw
    cases hr : fs.readFile q <;>
      simp [AutosysLogs.getJobLogsTrace, AutosysLogs.jobHeader, AutosysLogs.stdoutBlock,
        AutosysLogs.stderrBlock, AutosysLogs.autosyslogCmd,
        hp, hq, hpne, hqne, hex, heq, hw, hr]
  · by_cases hw : (w (AuthLogs.autosyslogCmd r jd.job_name true)).exitCode = 0 <;>
    cases hr : fs.readFile q <;>
      simp [AuthLogs.getJobLogsTrace, AuthLogs.jobHeader, AuthLogs.stdoutBlock,
        AuthLogs.stderrBlock, AuthLogs.retrieve_log_via_autosys, execEvents,
        hp, hq, hpne, hqne, hex, heq, hw, hr]
  · intro c hc
    by_cases hw : (w (AuthLogs.autosyslogCmd r jd.job_name true)).exitCode = 0 <;>
      simp [AuthLogs.getJobLogsTrace, AuthLogs.jobHeader, AuthLogs.stdoutBlock,
        AuthLogs.stderrBlock, AuthLogs.retrieve_log_via_autosys,
        hp, hq, hpne, hqne, hex, heq, hw, hc]
  · intro hw
    cases hr : fs.readFile q <;>
      simp [AuthLogs.getJobLogsTrace, AuthLogs.jobHeader, AuthLogs.stdoutBlock,
        AuthLogs.stderrBlock, AuthLogs.retrieve_log_via_autosys,
        hp, hq, hpne, hqne, hex, heq, hw, hr]

/-- oracle whose every command fails with exit code 1 -/
def c5World : World := fun _ => ⟨1, "", "err"⟩

/-- filesystem on which only /q exists and every read returns fixed
contents -/
def c5FS : FS := ⟨fun path => path == "/q", fun _ => Except.ok "content"⟩

/-- retriever with a username credential only, used by the C5 witness -/
def c5Retriever : AuthLogs.Retriever := ⟨some "u", none, none, none⟩

/-- C5 witness: a concrete record with a missing stdout path and an existing
stderr path under a failing fallback command, in both variants. -/
theorem C5_fallback_stdout_only_witness :
    execEvents (AutosysLogs.getJobLogsTrace c5World c5FS
      ⟨"J", none, none, some "/p", some "/q"⟩) = [["autosyslog", "-j", "J", "-o"]] ∧
    Ev.print "content" ∈ AutosysLogs.getJobLogsTrace c5World c5FS
      ⟨"J", none, none, some "/p", some "/q"⟩ ∧
    execEvents (AuthLogs.getJobLogsTrace c5World c5FS c5Retriever
      ⟨"J", none, none, some "/p", some "/q"⟩)
      = [AuthLogs.autosyslogCmd c5Retriever "J" true] ∧
    Ev.print "content" ∈ AuthLogs.getJobLogsTrace c5World c5FS c5Retriever
      ⟨"J", none, none, some "/p", some "/q"⟩ :=
  ⟨(C5_fallback_stdout_only c5World c5FS c5Retriever
      ⟨"J", none, none, some "/p", some "/q"⟩
      "/p" "/q" rfl (by decide) rfl (by decide) (by decide) (by decide)).1,
   (C5_fallback_stdout_only c5World c5FS c5Retriever
      ⟨"J", none, none, some "/p", some "/q"⟩
      "/p" "/q" rfl (by decide) rfl (by decide) (by decide) (by decide)).2.1
     "content" (by rfl),
   (C5_fallback_stdout_only c5World c5FS c5Retriever
      ⟨"J", none, none, some "/p", some "/q"⟩
      "/p" "/q" rfl (by decide) rfl (by decide) (by decide) (by decide)).2.2.2.1,
   (C5_fallback_stdout_only c5World c5FS c5Retriever
      ⟨"J", none, none, some "/p", some "/q"⟩
      "/p" "/q" rfl (by decide) rfl (by decide) (by decide) (by decide)).2.2.2.2.1
     "content" (by rfl)⟩

/-- best-effort command field: None exactly when the command failed, the
stripped stdout otherwise. -/
def cmdOpt (w : ShWorld) (c : String) : Option String :=
  if (w c).exitCode ≠ 0 then none else some (pyStripStr (w c).stdout)

/-- C6: in both summarizer variants, every secondary external command that
fails yields a None value for the corresponding field of the emitted report
while the rest of the report is still produced and printed with exit code 0:
each report field equals cmdOpt of its command (None exactly on a non-zero
exit), a None job_info gives an empty metadata mapping, and the report print
event is always in the trace. -/
theorem C6_failed_command_gives_null (w : ShWorld) (job_name : String)
    (run_number : Option Int) (fmt : SystemLogs.OutFormat) (now : String)
    (pretty : Bool) :
    ((SystemLogs.get_system_logs w job_name run_number).2.job_info
       = cmdOpt w (SystemLogs.jobInfoCmd job_name)) ∧
    ((SystemLogs.main w job_name run_number fmt now).2.1.system_logs
       = cmdOpt w (SystemLogs.syslogCmd job_name run_number)) ∧
    ((SystemLogs.main w job_name run_number fmt now).2.1.run_details
       = cmdOpt w (SystemLogs.runDetailsCmd job_name run_number)) ∧
    ((SystemLogs.main w job_name run_number fmt now).2.1.status_history
       = cmdOpt w (SystemLogs.statusHistCmd job_name)) ∧
    ((SystemLogs.main w job_name run_number fmt now).2.1.metadata
       = SystemLogs.extract_job_metadata (cmdOpt w (SystemLogs.jobInfoCmd job_name))) ∧
    (SystemLogs.extract_job_metadata none = []) ∧
    ((SystemLogs.main w job_name run_number fmt now).2.2 = 0) ∧
    (SystemLogs.reportEmitted fmt (SystemLogs.main w job_name run_number fmt now).2.1
       ∈ (SystemLogs.main w job_name run_number fmt now).1) ∧
    ((MinimalLogs.main w job_name run_number pretty).2.1.system_logs
       = cmdOpt w (MinimalLogs.syslogCmd job_name run_number)) ∧
    ((MinimalLogs.main w job_name run_number pretty).2.2 = 0) ∧
    (Ev.print (MinimalLogs.jsonDumpsResults
        (MinimalLogs.main w job_name run_number pretty).2.1)
       ∈ (MinimalLogs.main w job_name run_number pretty).1) := by
  have hrc : ∀ c, (SystemLogs.run_command w c).2 = cmdOpt w c := by
    intro c
    simp only [SystemLogs.run_command, cmdOpt]
    split <;> rfl
  have hmc : ∀ c, (MinimalLogs.run_command w c).2 = cmdOpt w c := by
    intro c
    simp only [MinimalLogs.run_command, cmdOpt]
    split <;> rfl
  cases fmt <;>
    (refine ⟨?_, ?_, ?_, ?_, ?_, rfl, ?_, ?_, ?_, ?_, ?_⟩ <;>
      simp [SystemLogs.main, SystemLogs.get_system_logs, MinimalLogs.main,
        MinimalLogs.get_system_logs, SystemLogs.reportEmitted, SystemLogs.textReport,
        hrc, hmc])

/-- oracle whose every shell command fails with exit code 2 -/
def failShWorld : ShWorld := fun _ => ⟨2, "out", "boom"⟩

/-- C2 counterexample: in the system-log summarizer entry point, when the
job-detail command (autorep -q) exits non-zero the script still prints the
JSON report (with null fields) and finishes with exit code 0, not 1. -/
theorem C2_counterexample :
    (failShWorld (SystemLogs.jobInfoCmd "J")).exitCode ≠ 0 ∧
    (SystemLogs.main failShWorld "J" none SystemLogs.OutFormat.json "T").2.2 = 0 ∧
    (SystemLogs.main failShWorld "J" none SystemLogs.OutFormat.json "T").2.2 ≠ 1 ∧
    Ev.print (SystemLogs.jsonDumpsOutput ⟨"J", none, "T", [], none, none, none⟩)
      ∈ (SystemLogs.main failShWorld "J" none SystemLogs.OutFormat.json "T").1 := by
  refine ⟨by decide, by rfl, by decide, by decide⟩

/-- C2 amended: a non-zero exit of the primary autorep job-detail command
aborts the two log-retriever entry points with exit code 1 and no report
(the trace holds exactly the banner and the error lines); in the summarizer
entry points a failed job-detail command does not abort: the report is still
printed and the exit code is 0. -/
theorem C2_amended (w : World) (fs : FS) (pr : AuthLogs.Prompts)
    (job prog : String) (a : AuthLogs.RawArgs) (args : AuthLogs.Args)
    (sw : ShWorld) (run : Option Int) (fmt : SystemLogs.OutFormat) (now : String) :
    ((w (AutosysLogs.autorepCmd job)).exitCode ≠ 0 →
      AutosysLogs.main w fs [prog, job]
        = ([Ev.print ("Retrieving logs for Autosys job: " ++ job),
            Ev.print ("Error retrieving job details: "
              ++ calledProcessErrorStr (AutosysLogs.autorepCmd job)
                   (w (AutosysLogs.autorepCmd job)).exitCode),
            Ev.print ("stderr: " ++ (w (AutosysLogs.autorepCmd job)).stderr)], 1)) ∧
    (AuthLogs.parse_arguments a = Except.ok args →
     (w (AuthLogs.autorepCmd (AuthLogs.mainRetriever pr args) args.job_name)).exitCode ≠ 0 →
      AuthLogs.main w fs pr a
        = (AuthLogs.mainBanner args
            ++ [Ev.print ("Error retrieving job details: "
                  ++ calledProcessErrorStr
                       (AuthLogs.autorepCmd (AuthLogs.mainRetriever pr args) args.job_name)
                       (w (AuthLogs.autorepCmd (AuthLogs.mainRetriever pr args)
                            args.job_name)).exitCode),
                Ev.print ("stderr: "
                  ++ (w (AuthLogs.autorepCmd (AuthLogs.mainRetriever pr args)
                           args.job_name)).stderr),
                Ev.print ("Error: "
                  ++ calledProcessErrorStr
                       (AuthLogs.autorepCmd (AuthLogs.mainRetriever pr args) args.job_name)
                       (w (AuthLogs.autorepCmd (AuthLogs.mainRetriever pr args)
                            args.job_name)).exitCode)],
           1)) ∧
    ((sw (SystemLogs.jobInfoCmd job)).exitCode ≠ 0 →
      (SystemLogs.main sw job run fmt now).2.2 = 0 ∧
      SystemLogs.reportEmitted fmt (SystemLogs.main sw job run fmt now).2.1
        ∈ (SystemLogs.main sw job run fmt now).1) := by
  refine ⟨?_, ?_, ?_⟩
  · intro hw
    simp [AutosysLogs.main, AutosysLogs.get_job_details, hw]
  · intro hpa hw
    simp [AuthLogs.main, hpa, AuthLogs.get_job_details, hw]
  · intro _
    cases fmt <;>
      simp [SystemLogs.main, SystemLogs.reportEmitted, SystemLogs.textReport]

/-- raw arguments with the job flag set -/
def c2RawArgs : AuthLogs.RawArgs := ⟨some "J", none, none, none, none, none⟩

/-- the parsed arguments those raw arguments produce -/
def c2Args : AuthLogs.Args := ⟨"J", none, none, none, none⟩

/-- oracle whose every list command fails with exit code 2 -/
def failListWorld : World := fun _ => ⟨2, "out", "boom"⟩

/-- filesystem on which nothing exists -/
def emptyFS : FS := ⟨fun _ => false, fun _ => Except.error "no"⟩

/-- C2 amended witness: each clause at a concrete failing world. -/
theorem C2_amended_witness :
    (AutosysLogs.main failListWorld emptyFS ["prog", "J"]).2 = 1 ∧
    (AuthLogs.main failListWorld emptyFS ⟨"pw", "in"⟩ c2RawArgs).2 = 1 ∧
    (SystemLogs.main failShWorld "J" none SystemLogs.OutFormat.json "T").2.2 = 0 := by
  refine ⟨?_, ?_, ?_⟩
  · rw [(C2_amended failListWorld emptyFS ⟨"pw", "in"⟩ "J" "prog" c2RawArgs c2Args
      failShWorld none SystemLogs.OutFormat.json "T").1 (by decide)]
  · rw [(C2_amended failListWorld emptyFS ⟨"pw", "in"⟩ "J" "prog" c2RawArgs c2Args
      failShWorld none SystemLogs.OutFormat.json "T").2.1 (by rfl) (by decide)]
  · exact ((C2_amended failListWorld emptyFS ⟨"pw", "in"⟩ "J" "prog" c2RawArgs c2Args
      failShWorld none SystemLogs.OutFormat.json "T").2.2 (by decide)).1
